import Mathlib

/-!
Verification development for the pyam repository material: the unit-conversion
tutorial notebook (`doc/source/tutorials/unit_conversion.ipynb`) and the two
GitHub Actions workflow definitions (`nightly` and `pytest`) shipped alongside it.

The development has three parts:
1. a model of the timeseries data and the `convert_unit` / `rename` /
   `timeseries` operations the notebook demonstrates (the library code itself is
   not part of the provided sources, so it is modelled from the specification);
2. a structural embedding of the notebook document (cell list, cell types, and
   an abstract-syntax transcription of each code cell);
3. an embedding of the two CI workflow files (triggers, job matrices, steps and
   step conditions).
-/

set_option maxRecDepth 16384

/-- A single timeseries row in IAMC format: index columns
`model, scenario, region, variable, unit` plus the numeric values for the year
columns (2010, 2030, 2050, 2100 in the tutorial data). Numeric values are
modelled as rationals. -/
structure Row where
  model : String
  scenario : String
  region : String
  varName : String
  unit : String
  values : List ℚ
deriving DecidableEq

/-- Modelled from the spec: an `IamDataFrame` wraps a table of timeseries rows.
The library class itself is not in the provided sources; only the data content
relevant to the tutorial claims is modelled. -/
structure IamDataFrame where
  rows : List Row
deriving DecidableEq

/-- Modelled from the spec: `timeseries()` displays the data in wide format; for
the purposes of comparing results it returns the rows of the frame. -/
def timeseries (df : IamDataFrame) : List Row :=
  df.rows

/-- Modelled from the spec: `rename(unit={a: b})` replaces unit `a` by `b` in
every row. -/
def rename (df : IamDataFrame) (a b : String) : IamDataFrame :=
  ⟨df.rows.map fun r =>
    if r.unit = a then ⟨r.model, r.scenario, r.region, r.varName, b, r.values⟩ else r⟩

/-- Error raised when no conversion factor between the two units can be found
(`pint.DimensionalityError` in the external library). -/
inductive ConvError where
  | dimensionalityError
deriving DecidableEq

/-- A unit definition in a custom registry: `name = coeff * base`, as in
`ureg.define` of the tutorial (`my_unit = 1 / 2.3 * EJ/yr`). -/
structure UnitDef where
  name : String
  coeff : ℚ
  base : String
deriving DecidableEq

/-- An entry of the default unit registry: source unit, target unit, required
context (`none` for context-free conversions) and the conversion factor. -/
structure ConvEntry where
  src : String
  tgt : String
  ctx : Option String
  factor : ℚ
deriving DecidableEq

/-- Modelled from the spec: the default registry (pint plus the
IAMconsortium/units definitions) loaded by the library is not part of the
provided sources. The table lists the conversions the tutorial exercises; the
numeric factors are representative constants (energy-unit factors and the
AR5-GWP100 metric for CH4), and the claims below depend only on which lookups
succeed, not on the particular numbers. Converting greenhouse-gas species
requires a context naming the metric, so the CH4-to-CO2e entry carries the
`AR5GWP100` context and no context-free entry for that pair exists. -/
def defaultRegistryTable : List ConvEntry :=
  [⟨"EJ/yr", "PWh/yr", none, 5/18⟩,
   ⟨"EJ/yr", "petawatthour / year", none, 5/18⟩,
   ⟨"EJ/yr", "Gtce/yr", none, 2500/73269⟩,
   ⟨"Mt CH4/yr", "Mt CO2e/yr", some "AR5GWP100", 28⟩]

/-- Look up a factor in the default registry for the given units and context. -/
def findDefaultFactor (src tgt : String) (ctx : Option String) : Option ℚ :=
  (defaultRegistryTable.find? fun e => e.src == src && e.tgt == tgt && e.ctx == ctx).map
    ConvEntry.factor

/-- Look up a factor in a custom registry: a definition `tgt = c * src` yields
the factor `1 / c` for converting a quantity of `src` into `tgt`. -/
def registryFactor (reg : List UnitDef) (src tgt : String) : Option ℚ :=
  (reg.find? fun d => d.name == tgt && d.base == src).map fun d => 1 / d.coeff

/-- The keyword arguments of `convert_unit`: an explicit `factor`, a custom
`registry`, and a `context` naming a conversion metric. -/
structure ConvArgs where
  factor : Option ℚ
  registry : Option (List UnitDef)
  context : Option String
deriving DecidableEq

/-- No keyword arguments. -/
def noConvArgs : ConvArgs := ⟨none, none, none⟩

/-- Only `context=c`. -/
def ctxArgs (c : String) : ConvArgs := ⟨none, none, some c⟩

/-- Only `factor=f`. -/
def factorArgs (f : ℚ) : ConvArgs := ⟨some f, none, none⟩

/-- Only `registry=reg`. -/
def registryArgs (reg : List UnitDef) : ConvArgs := ⟨none, some reg, none⟩

/-- Modelled from the spec: determine the conversion factor for one call of
`convert_unit`. An explicit `factor` takes precedence; otherwise the factor is
looked up in the custom registry when one is given, else in the default
registry under the given context. A failed lookup is the dimensionality
error. -/
def determineFactor (src tgt : String) (args : ConvArgs) : Except ConvError ℚ :=
  match args.factor with
  | some f => Except.ok f
  | none =>
    match (match args.registry with
           | some reg => registryFactor reg src tgt
           | none => findDefaultFactor src tgt args.context) with
    | some f => Except.ok f
    | none => Except.error ConvError.dimensionalityError

/-- Replace the unit of a row by `tgt` and scale all its values by `f`. -/
def scaleRow (tgt : String) (f : ℚ) (r : Row) : Row :=
  ⟨r.model, r.scenario, r.region, r.varName, tgt, r.values.map (· * f)⟩

/-- Convert one row: rows carrying the source unit are scaled and relabelled,
all other rows are untouched. -/
def convRow (current tgt : String) (f : ℚ) (r : Row) : Row :=
  if r.unit = current then scaleRow tgt f r else r

/-- Modelled from the spec: `convert_unit(current, to=..., ...)` transforms
every numeric value carrying the source unit by multiplying with the conversion
factor determined from the arguments, leaving all other rows unchanged. -/
def convert_unit (df : IamDataFrame) (current tgt : String) (args : ConvArgs) :
    Except ConvError IamDataFrame :=
  (determineFactor current tgt args).map fun f => ⟨df.rows.map (convRow current tgt f)⟩

/-- The `Primary Energy` row of the tutorial data. -/
def peRow : Row :=
  ⟨"MESSAGEix-GLOBIOM 1.0", "CD-LINKS_NPi", "World", "Primary Energy", "EJ/yr",
   [500.74, 636.79, 809.93, 1284.78]⟩

/-- The `Emissions|CH4` row of the tutorial data. -/
def ch4Row : Row :=
  ⟨"MESSAGEix-GLOBIOM 1.0", "CD-LINKS_NPi", "World", "Emissions|CH4", "Mt CH4/yr",
   [327.92, 354.35, 377.88, 403.98]⟩

/-- The tutorial data (`UNIT_DF`), as an `IamDataFrame`. -/
def UNIT_DF : IamDataFrame := ⟨[peRow, ch4Row]⟩

/-- C1: converting `Mt CH4/yr` to `Mt CO2e/yr` without a context raises the
dimensionality error, while the same call with `context=AR5GWP100` succeeds and
returns a converted frame. -/
theorem convert_unit_context_dimensionality :
    convert_unit UNIT_DF "Mt CH4/yr" "Mt CO2e/yr" noConvArgs =
      Except.error ConvError.dimensionalityError ∧
    ∃ out, convert_unit UNIT_DF "Mt CH4/yr" "Mt CO2e/yr" (ctxArgs "AR5GWP100") =
      Except.ok out :=
  ⟨rfl, ⟨_, rfl⟩⟩

/-- Extract the frame from a successful conversion, defaulting to an empty frame. -/
def okFrame (e : Except ConvError IamDataFrame) : IamDataFrame :=
  match e with
  | Except.ok df => df
  | Except.error _ => ⟨[]⟩

/-- C2: for every frame and every successful `convert_unit` call, a row whose
unit differs from the source unit is returned unchanged (same variable, unit
and numeric values, at the same position). -/
theorem convert_unit_preserves_other_units (df : IamDataFrame) (current tgt : String)
    (args : ConvArgs) (out : IamDataFrame)
    (h : convert_unit df current tgt args = Except.ok out)
    (i : Nat) (r : Row) (hr : df.rows[i]? = some r) (hu : r.unit ≠ current) :
    out.rows[i]? = some r := by
  unfold convert_unit at h
  cases hf : determineFactor current tgt args with
  | error e => rw [hf] at h; exact absurd h (by simp [Except.map])
  | ok f =>
    rw [hf] at h
    simp only [Except.map] at h
    obtain rfl : (⟨df.rows.map (convRow current tgt f)⟩ : IamDataFrame) = out := by
      injection h
    simp [List.getElem?_map, hr, convRow, hu]

/-- The result of the tutorial conversion `EJ/yr` to `PWh/yr`. -/
def convertedPWh : IamDataFrame :=
  okFrame (convert_unit UNIT_DF "EJ/yr" "PWh/yr" noConvArgs)

/-- Witness for C2: in the tutorial, converting `EJ/yr` to `PWh/yr` leaves the
`Mt CH4/yr` emissions row identical. -/
theorem convert_unit_preserves_other_units_witness :
    convertedPWh.rows[1]? = some ch4Row :=
  convert_unit_preserves_other_units UNIT_DF "EJ/yr" "PWh/yr" noConvArgs convertedPWh rfl 1
    ch4Row rfl (by decide)

/-- C4: for every successful `convert_unit` call, a row carrying the source
unit is relabelled to the target unit and every one of its numeric values is
multiplied by the factor determined from (source unit, target unit, explicit
factor / registry / context). -/
theorem convert_unit_applies_factor (df : IamDataFrame) (current tgt : String)
    (args : ConvArgs) (f : ℚ) (out : IamDataFrame)
    (hf : determineFactor current tgt args = Except.ok f)
    (h : convert_unit df current tgt args = Except.ok out)
    (i : Nat) (r : Row) (hr : df.rows[i]? = some r) (hu : r.unit = current) :
    out.rows[i]? = some (scaleRow tgt f r) := by
  unfold convert_unit at h
  rw [hf] at h
  simp only [Except.map] at h
  obtain rfl : (⟨df.rows.map (convRow current tgt f)⟩ : IamDataFrame) = out := by
    injection h
  simp [List.getElem?_map, hr, convRow, hu]

/-- The result of the tutorial conversion `EJ/yr` to `my_unit` with the custom
factor 2.3. -/
def convertedMyUnit : IamDataFrame :=
  okFrame (convert_unit UNIT_DF "EJ/yr" "my_unit" (factorArgs 2.3))

/-- Witness for C4: converting the tutorial frame with `factor=2.3` multiplies
the `Primary Energy` values by 2.3 and relabels the row to `my_unit`. -/
theorem convert_unit_applies_factor_witness :
    convertedMyUnit.rows[0]? = some (scaleRow "my_unit" 2.3 peRow) :=
  convert_unit_applies_factor UNIT_DF "EJ/yr" "my_unit" (factorArgs 2.3) 2.3 convertedMyUnit
    rfl rfl 0 peRow rfl rfl

/-- The custom registry of the tutorial: `ureg.define` of
`my_unit = 1 / 2.3 * EJ/yr`. -/
def myUnitRegistry : List UnitDef := [⟨"my_unit", 1/2.3, "EJ/yr"⟩]

/-- C3: converting with the custom registry defining `my_unit = 1 / 2.3 * EJ/yr`
produces the same resulting frame (hence the same timeseries) as converting
with the explicit custom factor 2.3, for every input frame. -/
theorem convert_unit_registry_matches_factor (df : IamDataFrame) :
    convert_unit df "EJ/yr" "my_unit" (registryArgs myUnitRegistry) =
      convert_unit df "EJ/yr" "my_unit" (factorArgs 2.3) := by
  have hfac : determineFactor "EJ/yr" "my_unit" (registryArgs myUnitRegistry) =
      determineFactor "EJ/yr" "my_unit" (factorArgs 2.3) := by
    have h1 : determineFactor "EJ/yr" "my_unit" (registryArgs myUnitRegistry) =
        Except.ok (1 / (1 / (2.3 : ℚ))) := rfl
    have h2 : determineFactor "EJ/yr" "my_unit" (factorArgs 2.3) =
        Except.ok (2.3 : ℚ) := rfl
    have h3 : (1 : ℚ) / (1 / 2.3) = 2.3 := by norm_num
    rw [h1, h2, h3]
  unfold convert_unit
  rw [hfac]

/-- Witness for C3: the equivalence applied to the tutorial frame. -/
theorem convert_unit_registry_matches_factor_witness :
    convert_unit UNIT_DF "EJ/yr" "my_unit" (registryArgs myUnitRegistry) =
      convert_unit UNIT_DF "EJ/yr" "my_unit" (factorArgs 2.3) :=
  convert_unit_registry_matches_factor UNIT_DF

/-- Abstract syntax of the Python statements appearing in the notebook's code
cells, at the granularity of the library calls the tutorial demonstrates.
`forLoop`, `whileLoop` and `ifBranch` are the control-flow constructs of the
language; they are included so that their absence from the transcription is a
meaningful statement. -/
inductive PyStmt where
  | importMod (m : String)
  | dataFrameCtor
  | iamDataFrameCtor
  | convertUnitCall (current tgt : String) (factor : Option ℚ) (context : Option String)
      (useRegistry : Bool)
  | renameCall (fromUnit toUnit : String)
  | timeseriesCall
  | getAppRegistry
  | registryCtor
  | registryDefine (u : String) (coeff : ℚ) (base : String)
  | assignStr (n v : String)
  | forLoop
  | whileLoop
  | ifBranch
deriving DecidableEq

/-- A notebook cell: its `cell_type` field and, for code cells, the
transcription of its source. Markdown cells carry no code. -/
structure NbCell where
  cellType : String
  code : List PyStmt
deriving DecidableEq

/-- A notebook document: its cells and the `nbformat` / `nbformat_minor`
version fields. -/
structure Notebook where
  cells : List NbCell
  nbformat : Nat
  nbformatMinor : Nat
deriving DecidableEq

/-- A markdown cell. -/
def mdCell : NbCell := ⟨"markdown", []⟩

/-- A code cell with the given statements. -/
def codeCell (s : List PyStmt) : NbCell := ⟨"code", s⟩

/-- The `unit_conversion.ipynb` notebook: twenty cells alternating between
markdown narrative and code, transcribed cell by cell from the source, with
`nbformat` 4 and `nbformat_minor` 2. -/
def unitConversionNotebook : Notebook :=
  ⟨[mdCell,
    codeCell [PyStmt.importMod "pandas", PyStmt.importMod "pyam"],
    mdCell,
    codeCell [PyStmt.dataFrameCtor, PyStmt.iamDataFrameCtor, PyStmt.timeseriesCall],
    mdCell,
    codeCell [PyStmt.convertUnitCall "EJ/yr" "PWh/yr" none none false,
              PyStmt.timeseriesCall],
    mdCell,
    codeCell [PyStmt.convertUnitCall "EJ/yr" "petawatthour / year" none none false,
              PyStmt.timeseriesCall],
    mdCell,
    codeCell [PyStmt.convertUnitCall "EJ/yr" "Gtce/yr" none none false,
              PyStmt.timeseriesCall],
    mdCell,
    codeCell [PyStmt.convertUnitCall "EJ/yr" "my_unit" (some 2.3) none false,
              PyStmt.timeseriesCall],
    mdCell,
    codeCell [PyStmt.convertUnitCall "Mt CH4/yr" "Mt CO2e/yr" none (some "AR5GWP100") false,
              PyStmt.timeseriesCall],
    mdCell,
    codeCell [PyStmt.assignStr "gwp" "AR5GWP100", PyStmt.assignStr "target" "Mt CO2e/yr",
              PyStmt.convertUnitCall "Mt CH4/yr" "Mt CO2e/yr" none (some "AR5GWP100") false,
              PyStmt.renameCall "Mt CO2e/yr" "Mt CO2e/yr (AR5GWP100)",
              PyStmt.timeseriesCall],
    mdCell,
    codeCell [PyStmt.importMod "pint", PyStmt.getAppRegistry],
    mdCell,
    codeCell [PyStmt.registryCtor, PyStmt.registryDefine "my_unit" (1/2.3) "EJ/yr",
              PyStmt.convertUnitCall "EJ/yr" "my_unit" none none true,
              PyStmt.timeseriesCall]],
   4, 2⟩

/-- Whether a statement is a `convert_unit` call. -/
def stmtIsConvertUnit : PyStmt → Bool
  | PyStmt.convertUnitCall _ _ _ _ _ => true
  | _ => false

/-- Whether a statement is a `timeseries()` call. -/
def stmtIsTimeseries : PyStmt → Bool
  | PyStmt.timeseriesCall => true
  | _ => false

/-- Whether a statement is a control-flow construct (loop or branch). -/
def stmtIsControlFlow : PyStmt → Bool
  | PyStmt.forLoop => true
  | PyStmt.whileLoop => true
  | PyStmt.ifBranch => true
  | _ => false

/-- The code cells of a notebook, in order. -/
def codeCells (nb : Notebook) : List NbCell :=
  nb.cells.filter fun c => c.cellType == "code"

/-- Whether a cell contains a `convert_unit` call. -/
def cellCallsConvertUnit (c : NbCell) : Bool :=
  c.code.any stmtIsConvertUnit

/-- Whether a cell contains a `timeseries()` call. -/
def cellCallsTimeseries (c : NbCell) : Bool :=
  c.code.any stmtIsTimeseries

/-- The claim that the notebook is a linear script: the `DataFrame` and
`IamDataFrame` constructions occur exactly once (in the second code cell), every
code cell after that one calls `convert_unit` and displays the result via
`timeseries()`, and no cell contains any control flow. -/
def notebookLinearScriptClaim : Bool :=
  ((codeCells unitConversionNotebook).countP fun c =>
      c.code.contains PyStmt.dataFrameCtor && c.code.contains PyStmt.iamDataFrameCtor) == 1 &&
  ((codeCells unitConversionNotebook).drop 2).all
    (fun c => cellCallsConvertUnit c && cellCallsTimeseries c) &&
  unitConversionNotebook.cells.all (fun c => c.code.all fun s => !stmtIsControlFlow s)

/-- Counterexample for C5 as stated: the ninth code cell (index 8), which
imports pint and displays the application registry, calls neither
`convert_unit` nor `timeseries()`, so not every code cell after the
construction cell does. -/
theorem notebook_linear_script_counterexample :
    (codeCells unitConversionNotebook)[8]? =
      some (codeCell [PyStmt.importMod "pint", PyStmt.getAppRegistry]) ∧
    cellCallsConvertUnit (codeCell [PyStmt.importMod "pint", PyStmt.getAppRegistry]) = false ∧
    cellCallsTimeseries (codeCell [PyStmt.importMod "pint", PyStmt.getAppRegistry]) = false ∧
    notebookLinearScriptClaim = false := by
  refine ⟨rfl, rfl, rfl, ?_⟩
  decide

/-- C5 (amended): the notebook is a linear script with no loops, branching or
other control flow; it constructs the `DataFrame` and `IamDataFrame` exactly
once, and every subsequent code cell either calls `convert_unit` (optionally
followed by `rename`) and displays the result via `timeseries()`, or is the
single cell that imports pint and displays the default application registry. -/
theorem notebook_linear_script_amended :
    (((codeCells unitConversionNotebook).countP fun c =>
        c.code.contains PyStmt.dataFrameCtor && c.code.contains PyStmt.iamDataFrameCtor) = 1) ∧
    (((codeCells unitConversionNotebook).drop 2).all (fun c =>
        (cellCallsConvertUnit c && cellCallsTimeseries c) ||
        c.code == [PyStmt.importMod "pint", PyStmt.getAppRegistry]) = true) ∧
    (unitConversionNotebook.cells.all (fun c => c.code.all fun s => !stmtIsControlFlow s)
      = true) := by
  refine ⟨?_, ?_, ?_⟩ <;> decide

/-- C9: every cell of the notebook has cell type `markdown` or `code`, and the
document declares notebook format version 4. -/
theorem notebook_cells_standard :
    (unitConversionNotebook.cells.all fun c =>
      c.cellType == "markdown" || c.cellType == "code") = true ∧
    unitConversionNotebook.nbformat = 4 := by
  refine ⟨?_, rfl⟩
  decide

/-- A trigger of a workflow: a cron schedule, or push / pull-request events
restricted to branch patterns. -/
inductive WfTrigger where
  | schedule (cron : String)
  | push (branches : List String)
  | pullRequest (branches : List String)
deriving DecidableEq

/-- One cell of a job matrix: an operating system and a Python version. -/
structure MatrixCell where
  os : String
  pythonVersion : String
deriving DecidableEq

/-- The `if:` condition of a step, over the matrix variables: unconditional,
Python version distinct from / equal to a value, or both an OS equality and a
Python-version equality. -/
inductive StepCond where
  | always
  | pyNe (v : String)
  | pyEq (v : String)
  | osEqPyEq (o v : String)
deriving DecidableEq

/-- Evaluate a step condition on a matrix cell. -/
def evalCond : StepCond → MatrixCell → Bool
  | StepCond.always, _ => true
  | StepCond.pyNe v, c => c.pythonVersion != v
  | StepCond.pyEq v, c => c.pythonVersion == v
  | StepCond.osEqPyEq o v, c => c.os == o && c.pythonVersion == v

/-- A workflow step: its name, the action it uses, the shell command it runs
(each when present), and its condition. -/
structure WfStep where
  name : Option String
  usesAction : Option String
  run : Option String
  cond : StepCond
deriving DecidableEq

/-- A workflow file: name, triggers, the job matrix (operating systems and
Python versions, whose cross product forms the matrix cells), the `fail-fast`
flag and the steps of the single `pytest` job. -/
structure Workflow where
  name : String
  triggers : List WfTrigger
  matrixOs : List String
  matrixPython : List String
  failFast : Bool
  steps : List WfStep
deriving DecidableEq

/-- The matrix cells of a workflow: the cross product of the declared operating
systems and Python versions. -/
def matrixCells (w : Workflow) : List MatrixCell :=
  w.matrixOs.flatMap fun o => w.matrixPython.map fun p => ⟨o, p⟩

/-- The unconditional `pytest tests` step of the `nightly` workflow, run with
Matplotlib image comparison. -/
def nightlyTestStep : WfStep :=
  ⟨some "Test with pytest (including Matplotlib)", none, some "pytest tests --mpl",
   StepCond.always⟩

/-- The docs-build step of the `nightly` workflow. -/
def nightlyDocsStep : WfStep :=
  ⟨some "Build the docs", none, some "cd doc\nmake html\ncd ..", StepCond.always⟩

/-- The `nightly` workflow file (`.github/workflows/nightly.yml`): scheduled
weekly, single-cell matrix, installs dependencies, runs pytest with Matplotlib
and builds the documentation. The templated suffixes of the step names
(interpolations of the matrix variables) are omitted from the embedding. -/
def nightlyWorkflow : Workflow :=
  ⟨"nightly",
   [WfTrigger.schedule "0 5 * * TUE"],
   ["ubuntu-latest"],
   ["3.10"],
   false,
   [⟨none, some "actions/checkout@v3", none, StepCond.always⟩,
    ⟨some "Set up Python", some "actions/setup-python@v4", none, StepCond.always⟩,
    ⟨some "Install Pandoc", some "r-lib/actions/setup-pandoc@v1", none, StepCond.always⟩,
    ⟨some "Install dependencies and package", none,
     some "python -m pip install --upgrade pip\npip install -e .[tests,optional_plotting,optional_io_formats,tutorials,docs]",
     StepCond.always⟩,
    nightlyTestStep,
    nightlyDocsStep]⟩

/-- The plain test step of the `pytest` workflow, conditional on the Python
version not being 3.10. -/
def pytestPlainTestStep : WfStep :=
  ⟨some "Test with pytest", none, some "pytest tests", StepCond.pyNe "3.10"⟩

/-- The Matplotlib-and-coverage test step of the `pytest` workflow, conditional
on the Python version being 3.10. -/
def pytestMplTestStep : WfStep :=
  ⟨some "Test with pytest including Matplotlib & Codecov", none,
   some "pytest tests --mpl --cov=./ --cov-report=xml", StepCond.pyEq "3.10"⟩

/-- The coverage-upload step of the `pytest` workflow, conditional on
ubuntu-latest and Python 3.10. -/
def pytestCodecovStep : WfStep :=
  ⟨some "Upload coverage report to Codecov", some "codecov/codecov-action@v1", none,
   StepCond.osEqPyEq "ubuntu-latest" "3.10"⟩

/-- The `pytest` workflow file (`.github/workflows/pytest.yml`): push and
pull-request triggers, a three-OS by four-Python-version matrix with fail-fast
disabled, dependency installation, conditional test steps and the coverage
upload. -/
def pytestWorkflow : Workflow :=
  ⟨"pytest",
   [WfTrigger.push ["main"], WfTrigger.pullRequest ["**"]],
   ["macos-latest", "ubuntu-latest", "windows-latest"],
   ["3.10", "3.9", "3.8", "3.7"],
   false,
   [⟨none, some "actions/checkout@v3", none, StepCond.always⟩,
    ⟨some "Set up Python", some "actions/setup-python@v4", none, StepCond.always⟩,
    ⟨some "Install dependencies and package", none,
     some "pip install .[tests,optional_plotting,optional_io_formats,tutorials]",
     StepCond.always⟩,
    pytestPlainTestStep,
    pytestMplTestStep,
    pytestCodecovStep]⟩

/-- The two CI workflow definitions of the repository. -/
def ciWorkflows : List Workflow := [nightlyWorkflow, pytestWorkflow]

/-- Whether the first list of characters leads the second one. -/
def leadChars : List Char → List Char → Bool
  | [], _ => true
  | _ :: _, [] => false
  | a :: as, b :: bs => a == b && leadChars as bs

/-- Whether the string `s` starts with the string `lead`. -/
def strStarts (lead s : String) : Bool :=
  leadChars lead.data s.data

/-- Whether a step invokes pytest. -/
def stepRunsPytest (s : WfStep) : Bool :=
  match s.run with
  | some r => strStarts "pytest" r
  | none => false

/-- Whether a step is the dependency-install step. -/
def stepIsInstall (s : WfStep) : Bool :=
  s.name == some "Install dependencies and package"

/-- C6: the trigger conditions of the CI workflows are exactly a weekly cron
schedule for the workflow named `nightly`, and push events on the `main` branch
plus pull-request events for all branches for the `pytest` workflow. -/
theorem ci_trigger_conditions :
    nightlyWorkflow.name = "nightly" ∧
    nightlyWorkflow.triggers = [WfTrigger.schedule "0 5 * * TUE"] ∧
    pytestWorkflow.triggers = [WfTrigger.push ["main"], WfTrigger.pullRequest ["**"]] := by
  refine ⟨rfl, rfl, rfl⟩

/-- C7: there are exactly two CI workflow definitions; the scheduled one runs
the test suite and builds the documentation, and the push/pull-request one runs
the test matrix and uploads a coverage report. -/
theorem ci_two_workflows_duties :
    ciWorkflows = [nightlyWorkflow, pytestWorkflow] ∧
    ciWorkflows.length = 2 ∧
    (nightlyWorkflow.triggers.all (fun t => match t with
      | WfTrigger.schedule _ => true
      | _ => false) = true) ∧
    (nightlyWorkflow.steps.any stepRunsPytest = true) ∧
    nightlyDocsStep ∈ nightlyWorkflow.steps ∧
    (pytestWorkflow.triggers.all (fun t => match t with
      | WfTrigger.schedule _ => false
      | _ => true) = true) ∧
    (pytestWorkflow.steps.any stepRunsPytest = true) ∧
    pytestCodecovStep ∈ pytestWorkflow.steps := by
  refine ⟨rfl, rfl, ?_, ?_, ?_, ?_, ?_, ?_⟩ <;> decide

/-- C8: each workflow declares a nonempty OS-by-Python job matrix with an
install step and a pytest invocation; the `pytest` workflow's matrix is the
full cross product of the three operating systems and the four Python versions
with fail-fast disabled, and in every matrix cell the install step and at least
one pytest step execute. -/
theorem ci_matrix_structure :
    (ciWorkflows.all (fun w =>
        !w.matrixOs.isEmpty && !w.matrixPython.isEmpty &&
        w.steps.any stepIsInstall && w.steps.any stepRunsPytest) = true) ∧
    pytestWorkflow.matrixOs = ["macos-latest", "ubuntu-latest", "windows-latest"] ∧
    pytestWorkflow.matrixPython = ["3.10", "3.9", "3.8", "3.7"] ∧
    matrixCells pytestWorkflow =
      [⟨"macos-latest", "3.10"⟩, ⟨"macos-latest", "3.9"⟩,
       ⟨"macos-latest", "3.8"⟩, ⟨"macos-latest", "3.7"⟩,
       ⟨"ubuntu-latest", "3.10"⟩, ⟨"ubuntu-latest", "3.9"⟩,
       ⟨"ubuntu-latest", "3.8"⟩, ⟨"ubuntu-latest", "3.7"⟩,
       ⟨"windows-latest", "3.10"⟩, ⟨"windows-latest", "3.9"⟩,
       ⟨"windows-latest", "3.8"⟩, ⟨"windows-latest", "3.7"⟩] ∧
    pytestWorkflow.failFast = false ∧
    ((matrixCells pytestWorkflow).all (fun cell =>
        pytestWorkflow.steps.any (fun s => stepIsInstall s && evalCond s.cond cell) &&
        pytestWorkflow.steps.any (fun s => stepRunsPytest s && evalCond s.cond cell)) = true) := by
  refine ⟨?_, rfl, rfl, ?_, rfl, ?_⟩ <;> decide

/-- C10: in the `pytest` workflow, the plain test step executes exactly when
the Python version is not 3.10 and the Matplotlib-and-coverage test step
executes exactly when it is 3.10; over every cell of the job matrix the two
conditions are mutually exclusive and jointly exhaustive. -/
theorem ci_pytest_test_steps_exactly_one :
    pytestPlainTestStep ∈ pytestWorkflow.steps ∧
    pytestMplTestStep ∈ pytestWorkflow.steps ∧
    ((matrixCells pytestWorkflow).all (fun cell =>
        (evalCond pytestPlainTestStep.cond cell == (cell.pythonVersion != "3.10")) &&
        (evalCond pytestMplTestStep.cond cell == (cell.pythonVersion == "3.10")) &&
        (evalCond pytestPlainTestStep.cond cell != evalCond pytestMplTestStep.cond cell))
      = true) := by
  refine ⟨?_, ?_, ?_⟩ <;> decide
